import Mathlib

/-!
Shallow embedding of the short-straddle trading bot (`src/main.py`) and
verification of its specification.

Python floats are modelled as exact rationals (`ℚ`); every numeric value the
claims exercise (feed strikes, mark prices, the 1.25 multiplier) is an exact
decimal, on which binary floating point and exact rational arithmetic agree.
Because the `Rat` ring operations of the ambient library are `@[irreducible]`,
the embedding uses explicitly reducible counterparts (`qadd`, `qsub`, `qmul`,
`qabs`, `qlt`) built from `mkRat`; bridge lemmas prove them equal to the
standard operations.
-/

/-- Boolean test that `pat` occurs as a contiguous sublist of `l`. -/
def listInfix [DecidableEq α] (pat l : List α) : Bool :=
  if pat.length ≤ l.length then
    (List.range (l.length - pat.length + 1)).any (fun i => (l.drop i).take pat.length = pat)
  else false

/-- Python's `pat in s` substring test on strings. -/
def strContains (s pat : String) : Bool :=
  listInfix pat.data s.data

/-- Kernel-reducible addition on `ℚ` (Python `+` on floats, exactly). -/
def qadd (a b : ℚ) : ℚ := mkRat (a.num * b.den + b.num * a.den) (a.den * b.den)

/-- Kernel-reducible subtraction on `ℚ` (Python `-` on floats, exactly). -/
def qsub (a b : ℚ) : ℚ := mkRat (a.num * b.den - b.num * a.den) (a.den * b.den)

/-- Kernel-reducible multiplication on `ℚ` (Python `*` on floats, exactly). -/
def qmul (a b : ℚ) : ℚ := mkRat (a.num * b.num) (a.den * b.den)

/-- Kernel-reducible strict-order test on `ℚ` (Python `<` on floats). -/
def qlt (a b : ℚ) : Bool := Rat.blt a b

/-- Python's `abs` on floats, modelled exactly on `ℚ`. -/
def qabs (a : ℚ) : ℚ := if qlt a 0 then qsub 0 a else a

/-! ## Signed Exchange Client (`DeltaExchangeAPI.make_request`, src/main.py lines 36-65)

The query string covered by the signature is built by raw f-string
concatenation: `"?" + "&".join(f"{k}={v}" ...)` when `params` is non-empty,
and the empty string otherwise.  The transmitted query string is built by the
HTTP library from the same parameters via `urlencode` with `quote_plus`. -/

/-- Query-string serialization used when building the signed message
(`make_request`, lines 39-42). -/
def query_string (params : List (String × String)) : String :=
  if params.isEmpty then ""
  else "?" ++ String.intercalate "&" (params.map (fun p => p.1 ++ "=" ++ p.2))

/-- The canonical signing string `method + timestamp + path + query_string + data`
(`make_request`, line 44). -/
def signature_data (method timestamp path : String) (params : List (String × String))
    (data : String) : String :=
  method ++ timestamp ++ path ++ query_string params ++ data

/-- UTF-8 byte expansion of a Unicode code point. -/
def utf8Bytes (n : Nat) : List Nat :=
  if n < 128 then [n]
  else if n < 2048 then [192 + n / 64, 128 + n % 64]
  else if n < 65536 then [224 + n / 4096, 128 + n / 64 % 64, 128 + n % 64]
  else [240 + n / 262144, 128 + n / 4096 % 64, 128 + n / 64 % 64, 128 + n % 64]

/-- Uppercase hexadecimal digit. -/
def hexDigitChar (n : Nat) : Char := "0123456789ABCDEF".data.getD n '0'

/-- Percent-encoding of one byte, uppercase hex as `urllib` emits it. -/
def percentEncodeByte (n : Nat) : List Char := ['%', hexDigitChar (n / 16), hexDigitChar (n % 16)]

/-- Characters `urllib.parse.quote_plus` leaves unencoded: ASCII letters,
digits, and `_ . - ~`. -/
def isUrlSafeChar (c : Char) : Bool :=
  (48 ≤ c.toNat && c.toNat ≤ 57) || (65 ≤ c.toNat && c.toNat ≤ 90) ||
    (97 ≤ c.toNat && c.toNat ≤ 122) || c == '-' || c == '.' || c == '_' || c == '~'

/-- Encoding of one character under `quote_plus`: safe characters pass through,
space becomes `+`, anything else is percent-encoded byte by byte. -/
def quotePlusChar (c : Char) : List Char :=
  if isUrlSafeChar c then [c]
  else if c == ' ' then ['+']
  else (utf8Bytes c.toNat).flatMap percentEncodeByte

/-- `urllib.parse.quote_plus` on a whole string. -/
def urlencodePlus (s : String) : String := String.mk (s.data.flatMap quotePlusChar)

/-- Query-string serialization the HTTP library actually transmits for the same
parameters (`requests.request(..., params=params, ...)`, line 58):
`urlencode(params, quote_via=quote_plus)` appended after `?`. -/
def transport_query_string (params : List (String × String)) : String :=
  if params.isEmpty then ""
  else "?" ++ String.intercalate "&" (params.map (fun p => urlencodePlus p.1 ++ "=" ++ urlencodePlus p.2))

/-! ## Instruments and ATM strike selection (`find_atm_strikes`, lines 100-122) -/

/-- One options-chain entry as the exchange returns it.  Fields the code reads
with `dict.get` and a fallback are `Option`s; `product_id` is read with direct
indexing on instruments the selector returned. -/
structure Instrument where
  symbol : String
  strike_price : Option ℚ
  contract_type : Option String
  product_id : Int
  mark_price : Option ℚ
  deriving DecidableEq

/-- `float(option.get('strike_price', 0))` (lines 107 and 116): a missing
strike silently becomes `0`. -/
def strikeOf (o : Instrument) : ℚ := o.strike_price.getD 0

/-- `option.get('contract_type', '')` (lines 117 and 119). -/
def ctOf (o : Instrument) : String := o.contract_type.getD ""

/-- `'call_options' in option.get('contract_type', '')` (line 117). -/
def isCallOpt (o : Instrument) : Bool := strContains (ctOf o) "call_options"

/-- `'put_options' in option.get('contract_type', '')` (line 119). -/
def isPutOpt (o : Instrument) : Bool := strContains (ctOf o) "put_options"

/-- `abs(strike_price - spot_price)` (line 108). -/
def diffTo (spot : ℚ) (o : Instrument) : ℚ := qabs (qsub (strikeOf o) spot)

/-- One iteration of the first scan of `find_atm_strikes` (lines 106-112).
The state is `(min_diff, atm_strike)`; `none` for `min_diff` models the
initial `float('inf')`, so the first instrument always updates, and `none`
for `atm_strike` models the name being still unbound. -/
def atmScanStep (spot : ℚ) (st : Option ℚ × Option ℚ) (o : Instrument) : Option ℚ × Option ℚ :=
  match st.1 with
  | none => (some (diffTo spot o), some (strikeOf o))
  | some m => if qlt (diffTo spot o) m then (some (diffTo spot o), some (strikeOf o)) else st

/-- The ATM strike after the first scan: `none` exactly when the chain is
empty (in the source, `atm_strike` is then never assigned, and the second
loop body, the only place reading it, never runs). -/
def atmStrikeOf (spot : ℚ) (options_chain : List Instrument) : Option ℚ :=
  (options_chain.foldl (atmScanStep spot) (none, none)).2

/-- One iteration of the second scan of `find_atm_strikes` (lines 115-120),
collecting the call and the put whose strike equals the ATM strike; a later
match overwrites an earlier one, as repeated assignment does in the source. -/
def atmCollectStep (atm : ℚ) (st : Option Instrument × Option Instrument) (o : Instrument) :
    Option Instrument × Option Instrument :=
  if strikeOf o = atm then
    if isCallOpt o then (some o, st.2)
    else if isPutOpt o then (st.1, some o)
    else st
  else st

/-- `DeltaExchangeAPI.find_atm_strikes` (lines 100-122). -/
def find_atm_strikes (spot_price : ℚ) (options_chain : List Instrument) :
    Option Instrument × Option Instrument :=
  match atmStrikeOf spot_price options_chain with
  | none => (none, none)
  | some atm => options_chain.foldl (atmCollectStep atm) (none, none)

/-! ## Python number formatting

`result_message` uses f-string format specs `:,.0f` and `:.2f`, and the stop
prices use `str(float)`.  These are modelled for floats whose value is an
exact decimal, which covers every value the claims exercise. -/

/-- Insert a thousands separator after every third digit, counting from the
right; the input list is the digit list reversed. -/
def groupThreeRev : List Char → List Char
  | [] => []
  | [a] => [a]
  | [a, b] => [a, b]
  | [a, b, c] => [a, b, c]
  | a :: b :: c :: rest => a :: b :: c :: ',' :: groupThreeRev rest

/-- Decimal digits of `n` with `,` thousands separators (format flag `,`). -/
def commaGroup (n : Nat) : String :=
  String.mk (groupThreeRev (toString n).data.reverse).reverse

/-- Round-half-even (Python float formatting) of `i + r/d` with `0 ≤ r < d`. -/
def rhe (i r d : Nat) : Nat :=
  if 2 * r < d then i
  else if d < 2 * r then i + 1
  else if i % 2 = 0 then i else i + 1

/-- Python `format(x, ',.0f')`. -/
def fmtComma0 (q : ℚ) : String :=
  let a := qabs q
  let n := a.num.toNat
  (if qlt q 0 then "-" else "") ++ commaGroup (rhe (n / a.den) (n % a.den) a.den)

/-- Two-digit zero-padded decimal. -/
def pad2 (n : Nat) : String := if n < 10 then "0" ++ toString n else toString n

/-- Python `format(x, '.2f')`. -/
def fmt2 (q : ℚ) : String :=
  let a := qabs q
  let t := a.num.toNat * 100
  let c := rhe (t / a.den) (t % a.den) a.den
  (if qlt q 0 then "-" else "") ++ toString (c / 100) ++ "." ++ pad2 (c % 100)

/-- Digits of `m` with a decimal point `k` places from the right; `k = 0`
yields the `".0"` suffix Python appends to integral floats. -/
def decStr (m k : Nat) : String :=
  if k = 0 then toString m ++ ".0"
  else
    let s := String.mk (List.replicate (k + 1 - (toString m).length) '0') ++ toString m
    s.take (s.length - k) ++ "." ++ s.drop (s.length - k)

/-- Python `str` on a float whose value is an exact decimal fraction. -/
def pyFloatStr (q : ℚ) : String :=
  let a := qabs q
  (if qlt q 0 then "-" else "") ++
    match (List.range 18).find? (fun k => a.den ∣ 10 ^ k) with
    | some k => decStr (a.num.toNat * 10 ^ k / a.den) k
    | none => toString a.num ++ "/" ++ toString a.den

/-! ## Orders (`place_order` lines 124-138, `place_stop_loss_order` lines 140-158) -/

/-- The JSON body of an order-creation request, one optional field per key the
source includes only for stop orders. -/
structure OrderRequest where
  product_id : Int
  size : Int
  side : String
  order_type : String
  stop_order_type : Option String
  stop_price : Option String
  reduce_only : Option String
  stop_trigger_method : Option String
  deriving DecidableEq

/-- The fields of the exchange's order response the source reads:
`response.get('success')` and `response['result']['id']`. -/
structure OrderResponse where
  success : Bool
  result_id : Int
  deriving DecidableEq

/-- The order body built by `DeltaExchangeAPI.place_order` (lines 126-131). -/
def place_order_request (product_id : Int) (side : String) (size : Int)
    (order_type : String) : OrderRequest :=
  { product_id := product_id, size := size, side := side, order_type := order_type,
    stop_order_type := none, stop_price := none, reduce_only := none,
    stop_trigger_method := none }

/-- The order body built by `DeltaExchangeAPI.place_stop_loss_order`
(lines 142-151). -/
def place_stop_loss_order_request (product_id : Int) (side : String)
    (stop_price : String) (size : Int) : OrderRequest :=
  { product_id := product_id, size := size, side := side, order_type := "market_order",
    stop_order_type := some "stop_loss_order", stop_price := some stop_price,
    reduce_only := some "true", stop_trigger_method := some "mark_price" }

/-! ## Position ledger (`TradingBot.active_positions`, lines 163 and 245-256) -/

/-- The value stored in `active_positions` (lines 247-256). -/
structure PositionRecord where
  call_option : Instrument
  put_option : Instrument
  call_order_id : Int
  put_order_id : Int
  call_sl_order_id : Option Int
  put_sl_order_id : Option Int
  premium_collected : ℚ
  timestamp : String
  deriving DecidableEq

/-- The in-memory position ledger, a Python dict in insertion order. -/
abbrev Ledger := List (String × PositionRecord)

/-- Python dict assignment `d[k] = v`: replaces in place when the key exists,
appends otherwise. -/
def dictInsert (m : Ledger) (k : String) (v : PositionRecord) : Ledger :=
  if m.any (fun p => p.1 == k) then m.map (fun p => if p.1 == k then (k, v) else p)
  else m ++ [(k, v)]

/-- The ledger key `f"{chat_id}_{int(time.time())}"` (line 246). -/
def position_key (chat_id : Int) (now : Nat) : String :=
  toString chat_id ++ "_" ++ toString now

/-! ## User-facing messages (exact character content of the source file) -/

/-- Line 181: no options for today's expiry. -/
def no_options_message (expiry_date : String) : String :=
  "âŒ No options found for today\x27s expiry (" ++ expiry_date ++ ")"

/-- Line 187: missing ATM leg. -/
def no_atm_message : String := "âŒ Could not find ATM call and put options"

/-- Line 217: a market sell order did not report success. -/
def failed_orders_message : String := "âŒ Failed to execute short straddle orders"

/-- Line 273: the top-level exception handler's report, here for the
`KeyError('strike_price')` raised by line 189/190 when a selected leg lacks
the field. -/
def key_error_message : String :=
  "âŒ Error executing short straddle: \x27strike_price\x27"

/-- Lines 258-267: the success summary.  It unconditionally contains the line
`"... Stop Loss Orders Placed"` whether or not the stop orders succeeded. -/
def result_message (call_strike total_premium : ℚ) (call_id put_id : Int)
    (expiry_date : String) : String :=
  "âœ… Short Straddle Executed Successfully!\n\n" ++
  "ğŸ“Š Strike Price: $" ++ fmtComma0 call_strike ++ "\n" ++
  "ğŸ’° Premium Collected: ~$" ++ fmt2 total_premium ++ "\n" ++
  "ğŸ“ Call Order ID: " ++ toString call_id ++ "\n" ++
  "ğŸ“ Put Order ID: " ++ toString put_id ++ "\n" ++
  "ğŸ›¡ï¸ Stop Loss Orders Placed\n" ++
  "â° Expiry: " ++ expiry_date ++ "\n\n" ++
  "âš ï¸ WARNING: This is a high-risk strategy with unlimited loss potential!"

/-! ## Straddle execution orchestrator (`TradingBot.execute_short_straddle`,
lines 169-273)

The exchange is abstracted as a response function `respond` from the order
body submitted to the response received; the returned `ExecResult` carries the
method's return string, the ledger after the call, and the orders submitted,
in submission order.  Spot price, chain, clock and expiry string are passed in
as the values the earlier market-data calls produced. -/

/-- Return value, ledger state and submitted-order trace of one execution. -/
structure ExecResult where
  message : String
  positions : Ledger
  orders : List OrderRequest
  deriving DecidableEq

/-- `TradingBot.execute_short_straddle` (lines 169-273). -/
def execute_short_straddle (chat_id : Int) (now : Nat) (now_iso : String)
    (expiry_date : String) (spot_price : ℚ) (options_chain : List Instrument)
    (respond : OrderRequest → OrderResponse) (active_positions : Ledger) : ExecResult :=
  if options_chain.isEmpty then
    { message := no_options_message expiry_date, positions := active_positions, orders := [] }
  else
    match find_atm_strikes spot_price options_chain with
    | (none, _) => { message := no_atm_message, positions := active_positions, orders := [] }
    | (some _, none) => { message := no_atm_message, positions := active_positions, orders := [] }
    | (some call_option, some put_option) =>
      match call_option.strike_price, put_option.strike_price with
      | none, _ => { message := key_error_message, positions := active_positions, orders := [] }
      | some _, none => { message := key_error_message, positions := active_positions, orders := [] }
      | some call_strike, some _put_strike =>
        let call_req := place_order_request call_option.product_id "sell" 1 "market_order"
        let call_order := respond call_req
        let put_req := place_order_request put_option.product_id "sell" 1 "market_order"
        let put_order := respond put_req
        if !call_order.success || !put_order.success then
          { message := failed_orders_message, positions := active_positions,
            orders := [call_req, put_req] }
        else
          let call_premium := call_option.mark_price.getD 0
          let put_premium := put_option.mark_price.getD 0
          let total_premium := qadd call_premium put_premium
          let stop_loss_call_price := pyFloatStr (qmul call_premium (mkRat 125 100))
          let stop_loss_put_price := pyFloatStr (qmul put_premium (mkRat 125 100))
          let call_sl_req :=
            place_stop_loss_order_request call_option.product_id "buy" stop_loss_call_price 1
          let call_sl_order := respond call_sl_req
          let put_sl_req :=
            place_stop_loss_order_request put_option.product_id "buy" stop_loss_put_price 1
          let put_sl_order := respond put_sl_req
          let record : PositionRecord :=
            { call_option := call_option, put_option := put_option,
              call_order_id := call_order.result_id, put_order_id := put_order.result_id,
              call_sl_order_id := if call_sl_order.success then some call_sl_order.result_id else none,
              put_sl_order_id := if put_sl_order.success then some put_sl_order.result_id else none,
              premium_collected := total_premium, timestamp := now_iso }
          { message := result_message call_strike total_premium call_order.result_id
              put_order.result_id expiry_date,
            positions := dictInsert active_positions (position_key chat_id now) record,
            orders := [call_req, put_req, call_sl_req, put_sl_req] }

/-! ## Configuration loading (lines 276-282) -/

/-- Python `os.getenv(name, fallback)` over an explicit environment. -/
def os_getenv (env : List (String × String)) (name fallback : String) : String :=
  match env.find? (fun p => p.1 == name) with
  | some p => p.2
  | none => fallback

/-- Line 276: `os.getenv('DELTA_API_KEY', 'your_api_key_here')`. -/
def DELTA_API_KEY (env : List (String × String)) : String :=
  os_getenv env "DELTA_API_KEY" "your_api_key_here"

/-- Line 277: `os.getenv('DELTA_API_SECRET', 'your_api_secret_here')`. -/
def DELTA_API_SECRET (env : List (String × String)) : String :=
  os_getenv env "DELTA_API_SECRET" "your_api_secret_here"

/-- Line 24: the constructor's base-URL default; the base URL is never read
from the environment at all. -/
def default_base_url : String := "https://api.india.delta.exchange"

/-! ## Concrete fixtures used by the witnesses and counterexamples -/

/-- Call instrument at strike 95, mark price 10. -/
def call95 : Instrument :=
  { symbol := "C-BTC-95", strike_price := some 95, contract_type := some "call_options",
    product_id := 1, mark_price := some 10 }

/-- Put instrument at strike 95, mark price 12. -/
def put95 : Instrument :=
  { symbol := "P-BTC-95", strike_price := some 95, contract_type := some "put_options",
    product_id := 2, mark_price := some 12 }

/-- Call instrument at strike 105, mark price 9. -/
def call105 : Instrument :=
  { symbol := "C-BTC-105", strike_price := some 105, contract_type := some "call_options",
    product_id := 3, mark_price := some 9 }

/-- Put instrument at strike 105, mark price 11. -/
def put105 : Instrument :=
  { symbol := "P-BTC-105", strike_price := some 105, contract_type := some "put_options",
    product_id := 4, mark_price := some 11 }

/-- Call instrument at strike 110, mark price 4. -/
def call110 : Instrument :=
  { symbol := "C-BTC-110", strike_price := some 110, contract_type := some "call_options",
    product_id := 5, mark_price := some 4 }

/-- Call instrument at strike 100, mark price 7. -/
def call100 : Instrument :=
  { symbol := "C-BTC-100", strike_price := some 100, contract_type := some "call_options",
    product_id := 6, mark_price := some 7 }

/-- Put instrument at strike 100, mark price 8. -/
def put100 : Instrument :=
  { symbol := "P-BTC-100", strike_price := some 100, contract_type := some "put_options",
    product_id := 7, mark_price := some 8 }

/-- A malformed chain entry with no `strike_price` field at all. -/
def noStrikeCall : Instrument :=
  { symbol := "MALFORMED", strike_price := none, contract_type := some "call_options",
    product_id := 9, mark_price := some 1 }

/-- Exchange double that accepts market sell orders and rejects stop orders. -/
def sellOkStopFail : OrderRequest → OrderResponse := fun r =>
  if r.stop_order_type.isNone then { success := true, result_id := 11 }
  else { success := false, result_id := 0 }

/-- Exchange double that accepts market sell orders, rejects the stop order
for product 1 and accepts the stop order for any other product. -/
def callStopFailPutStopOk : OrderRequest → OrderResponse := fun r =>
  if r.stop_order_type.isNone then { success := true, result_id := 31 }
  else if r.product_id == 1 then { success := false, result_id := 0 }
  else { success := true, result_id := 33 }

/-- Exchange double that rejects every order. -/
def allFail : OrderRequest → OrderResponse := fun _ => { success := false, result_id := 0 }

/-- Exchange double that accepts every order with the given order id. -/
def allOk (i : Int) : OrderRequest → OrderResponse := fun _ => { success := true, result_id := i }

/-- The query parameters `get_options_chain` sends (lines 85-89). -/
def options_chain_params : List (String × String) :=
  [("contract_types", "call_options,put_options"),
   ("underlying_asset_symbols", "BTC"),
   ("expiry_date", "12-10-2026")]

/-- Two concrete position records differing only in their order ids and
timestamps, standing for two distinct executions. -/
def recordA : PositionRecord :=
  { call_option := call95, put_option := put95, call_order_id := 21, put_order_id := 21,
    call_sl_order_id := some 21, put_sl_order_id := some 21,
    premium_collected := 22, timestamp := "2026-10-12T10:00:00" }

/-- Second concrete position record, distinct from the first. -/
def recordB : PositionRecord :=
  { call_option := call95, put_option := put95, call_order_id := 22, put_order_id := 22,
    call_sl_order_id := some 22, put_sl_order_id := some 22,
    premium_collected := 22, timestamp := "2026-10-12T10:00:00.500" }

/-! ## Bridge lemmas for the reducible rational operations -/

theorem qadd_eq (a b : ℚ) : qadd a b = a + b := (Rat.add_def' a b).symm

theorem qsub_eq (a b : ℚ) : qsub a b = a - b := (Rat.sub_def' a b).symm

theorem qmul_eq (a b : ℚ) : qmul a b = a * b := by
  unfold qmul
  rw [Rat.mul_def, Rat.normalize_eq_mkRat]

theorem qlt_iff (a b : ℚ) : qlt a b = true ↔ a < b := Iff.rfl

theorem qabs_eq (a : ℚ) : qabs a = |a| := by
  unfold qabs
  by_cases h : a < 0
  · rw [if_pos ((qlt_iff a 0).mpr h), qsub_eq, zero_sub, abs_of_neg h]
  · rw [if_neg (fun hb => h ((qlt_iff a 0).mp hb)), abs_of_nonneg (not_lt.mp h)]

theorem diffTo_eq (spot : ℚ) (o : Instrument) : diffTo spot o = |strikeOf o - spot| := by
  rw [diffTo, qabs_eq, qsub_eq]

/-! ## Helper lemmas on URL encoding -/

theorem flatMap_quotePlus_safe (l : List Char) (h : ∀ c ∈ l, isUrlSafeChar c = true) :
    l.flatMap quotePlusChar = l := by
  induction l with
  | nil => rfl
  | cons a l ih =>
    rw [List.flatMap_cons]
    have ha : quotePlusChar a = [a] := by
      unfold quotePlusChar
      rw [if_pos (h a (List.mem_cons_self a l))]
    rw [ha, ih (fun c hc => h c (List.mem_cons_of_mem a hc))]
    rfl

theorem urlencodePlus_safe (s : String) (h : ∀ c ∈ s.data, isUrlSafeChar c = true) :
    urlencodePlus s = s := by
  unfold urlencodePlus
  rw [flatMap_quotePlus_safe s.data h]

/-- C5 (confirmed): when the query parameters are empty, the query-string
segment of the signing string `method + timestamp + path + querystring + body`
is the empty string, not a bare `"?"`. -/
theorem empty_params_query_segment_empty (method timestamp path data : String) :
    query_string [] = "" ∧ query_string [] ≠ "?" ∧
    signature_data method timestamp path [] data = method ++ timestamp ++ path ++ "" ++ data := by
  refine ⟨rfl, by decide, ?_⟩
  show method ++ timestamp ++ path ++ query_string [] ++ data = _
  rfl

/-- C4 counterexample: for the very parameters `get_options_chain` sends, the
query string covered by the signature (raw `f"{k}={v}"` concatenation) differs
from the query string the HTTP library transmits (`quote_plus` encoding turns
the comma into `%2C`). -/
theorem signed_query_differs_from_transmitted :
    options_chain_params ≠ [] ∧
    query_string options_chain_params ≠ transport_query_string options_chain_params := by
  constructor
  · decide
  · intro h
    have : query_string options_chain_params = transport_query_string options_chain_params := h
    rw [show query_string options_chain_params =
          "?contract_types=call_options,put_options&underlying_asset_symbols=BTC&expiry_date=12-10-2026" from rfl,
        show transport_query_string options_chain_params =
          "?contract_types=call_options%2Cput_options&underlying_asset_symbols=BTC&expiry_date=12-10-2026" from rfl] at this
    simp at this

/-- C4 (amended): the signed and the transmitted query-string bytes coincide
exactly for parameters whose keys and values consist of URL-safe characters
only (letters, digits, `- . _ ~`); parameters containing any other character,
such as the comma in the options-chain request, are transmitted
percent-encoded while being signed raw. -/
theorem signed_query_matches_transport_on_safe_chars (params : List (String × String))
    (h : ∀ p ∈ params, (∀ c ∈ p.1.data, isUrlSafeChar c = true) ∧
      (∀ c ∈ p.2.data, isUrlSafeChar c = true)) :
    transport_query_string params = query_string params := by
  unfold transport_query_string query_string
  by_cases hp : params.isEmpty
  · rw [if_pos hp, if_pos hp]
  · rw [if_neg hp, if_neg hp]
    have : params.map (fun p => urlencodePlus p.1 ++ "=" ++ urlencodePlus p.2)
        = params.map (fun p => p.1 ++ "=" ++ p.2) := by
      apply List.map_congr_left
      intro p hp
      rw [urlencodePlus_safe p.1 (h p hp).1, urlencodePlus_safe p.2 (h p hp).2]
    rw [this]

/-- C4 witness: the amended theorem applied to a concrete safe parameter list. -/
theorem signed_query_matches_transport_witness :
    (∀ p ∈ [("underlying_asset_symbols", "BTC"), ("expiry_date", "12-10-2026")],
      (∀ c ∈ p.1.data, isUrlSafeChar c = true) ∧ (∀ c ∈ p.2.data, isUrlSafeChar c = true)) ∧
    transport_query_string [("underlying_asset_symbols", "BTC"), ("expiry_date", "12-10-2026")]
      = query_string [("underlying_asset_symbols", "BTC"), ("expiry_date", "12-10-2026")] :=
  ⟨by decide, signed_query_matches_transport_on_safe_chars _ (by decide)⟩

/-- C9 counterexample: with an empty process environment, configuration loading
returns the placeholder strings; no required-configuration error is raised (the
loader is total and cannot fail). -/
theorem missing_env_defaults_to_placeholder :
    DELTA_API_KEY [] = "your_api_key_here" ∧
    DELTA_API_SECRET [] = "your_api_secret_here" :=
  ⟨rfl, rfl⟩

/-- C9 (amended): when `DELTA_API_KEY` or `DELTA_API_SECRET` is absent from the
environment, `os.getenv` silently substitutes the placeholder strings
`your_api_key_here` / `your_api_secret_here`; no error is surfaced.  The
exchange base URL is not read from the environment at all but is a hardcoded
constructor default. -/
theorem missing_env_yields_placeholder_config (env : List (String × String))
    (hk : env.find? (fun p => p.1 == "DELTA_API_KEY") = none)
    (hs : env.find? (fun p => p.1 == "DELTA_API_SECRET") = none) :
    DELTA_API_KEY env = "your_api_key_here" ∧
    DELTA_API_SECRET env = "your_api_secret_here" ∧
    default_base_url = "https://api.india.delta.exchange" := by
  unfold DELTA_API_KEY DELTA_API_SECRET os_getenv
  rw [hk, hs]
  exact ⟨rfl, rfl, rfl⟩

/-- C9 witness: the amended theorem applied to a concrete environment missing
both variables. -/
theorem missing_env_yields_placeholder_config_witness :
    ([("PORT", "10000")] : List (String × String)).find? (fun p => p.1 == "DELTA_API_KEY") = none ∧
    ([("PORT", "10000")] : List (String × String)).find? (fun p => p.1 == "DELTA_API_SECRET") = none ∧
    (DELTA_API_KEY [("PORT", "10000")] = "your_api_key_here" ∧
     DELTA_API_SECRET [("PORT", "10000")] = "your_api_secret_here" ∧
     default_base_url = "https://api.india.delta.exchange") :=
  ⟨by decide, by decide,
    missing_env_yields_placeholder_config [("PORT", "10000")] (by decide) (by decide)⟩

/-- C10 (confirmed): an instrument lacking `strike_price` is given strike `0`
by the defaulting lookup and participates in the nearest-strike scan; with
spot 1 and a chain holding such an instrument next to real strike-100 legs,
the ATM strike becomes 0 and the malformed instrument is returned as the call
leg (no error is raised). -/
theorem missing_strike_defaults_to_zero_and_participates :
    (∀ o : Instrument, o.strike_price = none → strikeOf o = 0) ∧
    atmStrikeOf 1 [noStrikeCall, call100, put100] = some 0 ∧
    find_atm_strikes 1 [noStrikeCall, call100, put100] = (some noStrikeCall, none) := by
  refine ⟨fun o h => ?_, by decide, by decide⟩
  rw [strikeOf, h]
  rfl

/-- C10 witness: the universally quantified part applied to the concrete
malformed instrument. -/
theorem missing_strike_defaults_witness :
    noStrikeCall.strike_price = none ∧ strikeOf noStrikeCall = 0 :=
  ⟨rfl, missing_strike_defaults_to_zero_and_participates.1 noStrikeCall rfl⟩

/-- C2 counterexample: spot 100 with strikes 95 and 105 both at distance 5 and
both legs present at 95, yet with the 105 instruments listed first the
selector returns the strike-105 call and put, not the lower strike 95: the
outcome depends on chain order. -/
theorem atm_tie_break_not_lower_strike :
    diffTo 100 call95 = diffTo 100 call105 ∧
    call95 ∈ [call105, put105, call95, put95] ∧
    put95 ∈ [call105, put105, call95, put95] ∧
    call95.strike_price = some 95 ∧ put95.strike_price = some 95 ∧
    find_atm_strikes 100 [call105, put105, call95, put95] = (some call105, some put105) ∧
    call105.strike_price = some 105 ∧ put105.strike_price = some 105 := by
  decide

/-! ## Helper lemmas on the first scan of `find_atm_strikes` -/

theorem atmScan_keep (spot : ℚ) (l : List Instrument) (m a : ℚ)
    (h : ∀ o ∈ l, ¬ diffTo spot o < m) :
    l.foldl (atmScanStep spot) (some m, some a) = (some m, some a) := by
  induction l with
  | nil => rfl
  | cons o l ih =>
    rw [List.foldl_cons]
    have hq : qlt (diffTo spot o) m = false :=
      Bool.eq_false_iff.mpr (fun ht => h o (List.mem_cons_self o l) ((qlt_iff _ _).mp ht))
    have hstep : atmScanStep spot (some m, some a) o = (some m, some a) := by
      simp [atmScanStep, hq]
    rw [hstep]
    exact ih (fun o' ho' => h o' (List.mem_cons_of_mem o ho'))

theorem atmScan_above (spot d : ℚ) (l : List Instrument)
    (h : ∀ o ∈ l, d < diffTo spot o) :
    ∀ st : Option ℚ × Option ℚ,
      (st = (none, none) ∨ ∃ m a, st = (some m, some a) ∧ d < m) →
      (l.foldl (atmScanStep spot) st = (none, none) ∨
        ∃ m a, l.foldl (atmScanStep spot) st = (some m, some a) ∧ d < m) := by
  induction l with
  | nil => exact fun st hst => hst
  | cons o l ih =>
    intro st hst
    rw [List.foldl_cons]
    apply ih (fun o' ho' => h o' (List.mem_cons_of_mem o ho'))
    right
    rcases hst with h0 | ⟨m, a, hma, hdm⟩
    · rw [h0]
      exact ⟨diffTo spot o, strikeOf o, rfl, h o (List.mem_cons_self o l)⟩
    · rw [hma]
      by_cases hq : qlt (diffTo spot o) m = true
      · exact ⟨diffTo spot o, strikeOf o, by simp [atmScanStep, hq], h o (List.mem_cons_self o l)⟩
      · exact ⟨m, a, by simp [atmScanStep, Bool.eq_false_iff.mpr hq], hdm⟩

/-- C2 (amended): the tie-break is chain order, not the lower strike: the ATM
strike chosen by the first scan is the strike of the earliest chain element
attaining the minimal distance to spot (strictly closer than everything before
it, weakly closer than everything after it); the second scan then collects the
call and put at that strike.  The lower of two tied strikes is chosen only
when it appears first in the chain. -/
theorem atm_strike_first_minimizer (spot : ℚ) (l₁ l₂ : List Instrument) (o : Instrument)
    (h₁ : ∀ o' ∈ l₁, diffTo spot o < diffTo spot o')
    (h₂ : ∀ o' ∈ l₂, diffTo spot o ≤ diffTo spot o') :
    atmStrikeOf spot (l₁ ++ o :: l₂) = some (strikeOf o) := by
  unfold atmStrikeOf
  rw [List.foldl_append, List.foldl_cons]
  have H := atmScan_above spot (diffTo spot o) l₁ h₁ (none, none) (Or.inl rfl)
  have hstep : atmScanStep spot (l₁.foldl (atmScanStep spot) (none, none)) o
      = (some (diffTo spot o), some (strikeOf o)) := by
    rcases H with h0 | ⟨m, a, hma, hdm⟩
    · rw [h0]
      rfl
    · rw [hma]
      simp [atmScanStep, (qlt_iff _ _).mpr hdm]
  rw [hstep,
    atmScan_keep spot l₂ (diffTo spot o) (strikeOf o)
      (fun o' ho' => not_lt.mpr (h₂ o' ho'))]

/-- C2 witness: the amended theorem applied concretely: strike 95 at distance
5 is selected when it precedes the equidistant strike 105. -/
theorem atm_strike_first_minimizer_witness :
    (∀ o' ∈ [call110], diffTo 100 call95 < diffTo 100 o') ∧
    (∀ o' ∈ [call105], diffTo 100 call95 ≤ diffTo 100 o') ∧
    atmStrikeOf 100 ([call110] ++ call95 :: [call105]) = some (strikeOf call95) :=
  ⟨by decide, by decide,
    atm_strike_first_minimizer 100 [call110] [call105] call95 (by decide) (by decide)⟩

/-! ## Helper lemmas on the second scan of `find_atm_strikes` -/

theorem atmScan_some (spot : ℚ) (l : List Instrument) :
    ∀ m a : ℚ, ∃ m' a', l.foldl (atmScanStep spot) (some m, some a) = (some m', some a') := by
  induction l with
  | nil => exact fun m a => ⟨m, a, rfl⟩
  | cons o l ih =>
    intro m a
    rw [List.foldl_cons]
    by_cases hq : qlt (diffTo spot o) m = true
    · have : atmScanStep spot (some m, some a) o = (some (diffTo spot o), some (strikeOf o)) := by
        simp [atmScanStep, hq]
      rw [this]
      exact ih _ _
    · have : atmScanStep spot (some m, some a) o = (some m, some a) := by
        simp [atmScanStep, Bool.eq_false_iff.mpr hq]
      rw [this]
      exact ih _ _

theorem atmStrike_nonempty (spot : ℚ) (o : Instrument) (l : List Instrument) :
    ∃ a, atmStrikeOf spot (o :: l) = some a := by
  unfold atmStrikeOf
  rw [List.foldl_cons]
  have h0 : atmScanStep spot (none, none) o = (some (diffTo spot o), some (strikeOf o)) := rfl
  rw [h0]
  obtain ⟨m', a', h⟩ := atmScan_some spot l (diffTo spot o) (strikeOf o)
  exact ⟨a', by rw [h]⟩

theorem atmScan_snd_mem (spot : ℚ) (l : List Instrument) :
    ∀ st : Option ℚ × Option ℚ,
      (l.foldl (atmScanStep spot) st).2 = st.2 ∨
        ∃ o ∈ l, (l.foldl (atmScanStep spot) st).2 = some (strikeOf o) := by
  induction l with
  | nil => exact fun st => Or.inl rfl
  | cons o l ih =>
    intro st
    rw [List.foldl_cons]
    rcases ih (atmScanStep spot st o) with h | ⟨w, hw, hsome⟩
    · rw [h]
      match st, o with
      | (none, b), o =>
        exact Or.inr ⟨o, List.mem_cons_self o l, rfl⟩
      | (some m, b), o =>
        by_cases hq : qlt (diffTo spot o) m = true
        · refine Or.inr ⟨o, List.mem_cons_self o l, ?_⟩
          simp [atmScanStep, hq]
        · refine Or.inl ?_
          simp [atmScanStep, Bool.eq_false_iff.mpr hq]
    · exact Or.inr ⟨w, List.mem_cons_of_mem o hw, hsome⟩

theorem atmStrike_mem (spot : ℚ) (chain : List Instrument) (a : ℚ)
    (h : atmStrikeOf spot chain = some a) : ∃ o ∈ chain, strikeOf o = a := by
  rcases atmScan_snd_mem spot chain (none, none) with h0 | ⟨o, ho, hsome⟩
  · rw [atmStrikeOf] at h
    rw [h0] at h
    exact absurd h (by simp)
  · rw [atmStrikeOf] at h
    rw [hsome] at h
    exact ⟨o, ho, Option.some_inj.mp h⟩

theorem atmCollect_keeps_call (atm : ℚ) (l : List Instrument) :
    ∀ st : Option Instrument × Option Instrument, st.1.isSome = true →
      ((l.foldl (atmCollectStep atm) st).1).isSome = true := by
  induction l with
  | nil => exact fun st h => h
  | cons o l ih =>
    intro st h
    rw [List.foldl_cons]
    apply ih
    unfold atmCollectStep
    by_cases hs : strikeOf o = atm
    · rw [if_pos hs]
      by_cases hc : isCallOpt o = true
      · rw [if_pos hc]
        rfl
      · rw [if_neg hc]
        by_cases hp : isPutOpt o = true
        · rw [if_pos hp]
          exact h
        · rw [if_neg hp]
          exact h
    · rw [if_neg hs]
      exact h

theorem atmCollect_finds_call (atm : ℚ) (l : List Instrument)
    (hcall : ∀ o ∈ l, isCallOpt o = true) :
    ∀ st : Option Instrument × Option Instrument, (∃ o ∈ l, strikeOf o = atm) →
      ((l.foldl (atmCollectStep atm) st).1).isSome = true := by
  induction l with
  | nil => exact fun st h => absurd h (by simp)
  | cons o l ih =>
    intro st ⟨w, hw, hstrike⟩
    rw [List.foldl_cons]
    rcases List.mem_cons.mp hw with rfl | hwl
    · apply atmCollect_keeps_call
      have : atmCollectStep atm st w = (some w, st.2) := by
        rw [atmCollectStep, if_pos hstrike, if_pos (hcall w (List.mem_cons_self w l))]
      rw [this]
      rfl
    · exact ih (fun o' ho' => hcall o' (List.mem_cons_of_mem o ho')) _ ⟨w, hwl, hstrike⟩

theorem atmCollect_no_put (atm : ℚ) (l : List Instrument)
    (hcall : ∀ o ∈ l, isCallOpt o = true) :
    ∀ st : Option Instrument × Option Instrument,
      (l.foldl (atmCollectStep atm) st).2 = st.2 := by
  induction l with
  | nil => exact fun st => rfl
  | cons o l ih =>
    intro st
    rw [List.foldl_cons]
    rw [ih (fun o' ho' => hcall o' (List.mem_cons_of_mem o ho'))]
    unfold atmCollectStep
    by_cases hs : strikeOf o = atm
    · rw [if_pos hs, if_pos (hcall o (List.mem_cons_self o l))]
    · rw [if_neg hs]

/-- C7 (confirmed): the ATM selector applied to an empty chain returns
`(none, none)` - an explicit failure with no partial result and no crash (in
the source, `atm_strike` stays unbound on an empty chain, but the only loop
reading it never iterates); and applied to a non-empty chain of call
instruments with no put anywhere, it returns the call it found together with
a missing-put indication rather than raising an error. -/
theorem atm_selector_empty_and_missing_put :
    (∀ spot : ℚ, find_atm_strikes spot [] = (none, none)) ∧
    (∀ (spot : ℚ) (chain : List Instrument), chain ≠ [] →
      (∀ o ∈ chain, isCallOpt o = true) →
      (∃ c, (find_atm_strikes spot chain).1 = some c) ∧
        (find_atm_strikes spot chain).2 = none) := by
  constructor
  · intro spot
    rfl
  · intro spot chain hne hcall
    obtain ⟨o, l, rfl⟩ := List.exists_cons_of_ne_nil hne
    obtain ⟨a, ha⟩ := atmStrike_nonempty spot o l
    unfold find_atm_strikes
    rw [ha]
    constructor
    · exact Option.isSome_iff_exists.mp
        (atmCollect_finds_call a (o :: l) hcall (none, none)
          (atmStrike_mem spot (o :: l) a ha))
    · exact atmCollect_no_put a (o :: l) hcall (none, none)

/-- C7 witness: the theorem applied to the empty chain and to a concrete
one-call, no-put chain. -/
theorem atm_selector_empty_and_missing_put_witness :
    find_atm_strikes 100 [] = (none, none) ∧
    (([call100] : List Instrument) ≠ [] ∧ ∀ o ∈ [call100], isCallOpt o = true) ∧
    ((∃ c, (find_atm_strikes 100 [call100]).1 = some c) ∧
      (find_atm_strikes 100 [call100]).2 = none) :=
  ⟨atm_selector_empty_and_missing_put.1 100, ⟨by decide, by decide⟩,
    atm_selector_empty_and_missing_put.2 100 [call100] (by decide) (by decide)⟩

/-- C6 (confirmed): in a fully successful run, each submitted stop-loss order
carries as trigger price the string rendering of the leg's own mark price at
selection time multiplied by 1.25 (the literal `1.25` is `mkRat 125 100`), and
a mark price of 120.00 renders as the string `"150.0"`. -/
theorem stop_trigger_price_is_mark_times_factor
    (chat_id : Int) (now : Nat) (now_iso expiry : String) (spot : ℚ)
    (chain : List Instrument) (respond : OrderRequest → OrderResponse) (pos : Ledger)
    (call put : Instrument) (cs ps mc mp : ℚ)
    (hne : chain.isEmpty = false)
    (hfind : find_atm_strikes spot chain = (some call, some put))
    (hcs : call.strike_price = some cs) (hps : put.strike_price = some ps)
    (hmc : call.mark_price = some mc) (hmp : put.mark_price = some mp)
    (hresp : ∀ r, (respond r).success = true) :
    ((execute_short_straddle chat_id now now_iso expiry spot chain respond pos).orders.map
        (fun r => r.stop_price))
      = [none, none, some (pyFloatStr (qmul mc (mkRat 125 100))),
         some (pyFloatStr (qmul mp (mkRat 125 100)))] ∧
    pyFloatStr (qmul 120 (mkRat 125 100)) = "150.0" := by
  constructor
  · simp [execute_short_straddle, hne, hfind, hcs, hps, hmc, hmp, hresp,
      place_order_request, place_stop_loss_order_request]
  · decide

/-- C6 witness: the theorem applied to a concrete all-success run with mark
prices 10 and 12. -/
theorem stop_trigger_price_witness :
    ([call95, put95] : List Instrument).isEmpty = false ∧
    find_atm_strikes 100 [call95, put95] = (some call95, some put95) ∧
    (((execute_short_straddle 42 1000 "2026-10-12T10:00:00" "12-10-2026" 100
          [call95, put95] (allOk 21) []).orders.map (fun r => r.stop_price))
        = [none, none, some (pyFloatStr (qmul 10 (mkRat 125 100))),
           some (pyFloatStr (qmul 12 (mkRat 125 100)))] ∧
      pyFloatStr (qmul 120 (mkRat 125 100)) = "150.0") :=
  ⟨rfl, by decide,
    stop_trigger_price_is_mark_times_factor 42 1000 "2026-10-12T10:00:00" "12-10-2026" 100
      [call95, put95] (allOk 21) [] call95 put95 95 95 10 12 rfl (by decide)
      rfl rfl rfl rfl (fun r => rfl)⟩

set_option maxRecDepth 8000 in
/-- C1 counterexample: with both market sells accepted and both stop orders
rejected, the execution still returns the success summary, and that summary
does contain the line `Stop Loss Orders Placed` - contradicting the claim that
the summary does not assert stop-loss protection was placed.  The inserted
record carries no stop order ids. -/
theorem partial_stop_failure_summary_still_claims_protection :
    (sellOkStopFail (place_order_request 1 "sell" 1 "market_order")).success = true ∧
    (sellOkStopFail (place_order_request 2 "sell" 1 "market_order")).success = true ∧
    (sellOkStopFail (place_stop_loss_order_request 1 "buy" "12.5" 1)).success = false ∧
    (sellOkStopFail (place_stop_loss_order_request 2 "buy" "15.0" 1)).success = false ∧
    strContains (execute_short_straddle 42 1000 "2026-10-12T10:00:00" "12-10-2026" 100
        [call95, put95] sellOkStopFail []).message "Stop Loss Orders Placed" = true ∧
    (execute_short_straddle 42 1000 "2026-10-12T10:00:00" "12-10-2026" 100
        [call95, put95] sellOkStopFail []).message ≠ failed_orders_message ∧
    ((execute_short_straddle 42 1000 "2026-10-12T10:00:00" "12-10-2026" 100
        [call95, put95] sellOkStopFail []).positions.map
          (fun p => (p.2.call_sl_order_id, p.2.put_sl_order_id))) = [(none, none)] := by
  decide

/-- C1 (amended): if both market sells report success then, whatever the two
stop-loss placements return, exactly one PositionRecord is inserted under the
session-and-time key, recording a stop order id precisely for each stop
placement that reported success (lines 252-253), and the return value is the
success summary `result_message` (not a fatal error).  In particular, when one
or both stop placements report failure, the failed id or ids are absent while
the other, if any, is kept - yet the summary, a fixed template, still claims
`Stop Loss Orders Placed`. -/
theorem partial_stop_failure_records_position_and_reports_success
    (chat_id : Int) (now : Nat) (now_iso expiry : String) (spot : ℚ)
    (chain : List Instrument) (respond : OrderRequest → OrderResponse) (pos : Ledger)
    (call put : Instrument) (cs ps mc mp : ℚ)
    (hne : chain.isEmpty = false)
    (hfind : find_atm_strikes spot chain = (some call, some put))
    (hcs : call.strike_price = some cs) (hps : put.strike_price = some ps)
    (hmc : call.mark_price = some mc) (hmp : put.mark_price = some mp)
    (hsell : ∀ r, r.stop_order_type = none → (respond r).success = true)
    (hfail :
      (respond (place_stop_loss_order_request call.product_id "buy"
          (pyFloatStr (qmul mc (mkRat 125 100))) 1)).success = false ∨
      (respond (place_stop_loss_order_request put.product_id "buy"
          (pyFloatStr (qmul mp (mkRat 125 100))) 1)).success = false) :
    execute_short_straddle chat_id now now_iso expiry spot chain respond pos
      = { message := result_message cs (qadd mc mp)
            (respond (place_order_request call.product_id "sell" 1 "market_order")).result_id
            (respond (place_order_request put.product_id "sell" 1 "market_order")).result_id expiry,
          positions := dictInsert pos (position_key chat_id now)
            { call_option := call, put_option := put,
              call_order_id := (respond (place_order_request call.product_id "sell" 1 "market_order")).result_id,
              put_order_id := (respond (place_order_request put.product_id "sell" 1 "market_order")).result_id,
              call_sl_order_id :=
                if (respond (place_stop_loss_order_request call.product_id "buy"
                    (pyFloatStr (qmul mc (mkRat 125 100))) 1)).success then
                  some (respond (place_stop_loss_order_request call.product_id "buy"
                    (pyFloatStr (qmul mc (mkRat 125 100))) 1)).result_id
                else none,
              put_sl_order_id :=
                if (respond (place_stop_loss_order_request put.product_id "buy"
                    (pyFloatStr (qmul mp (mkRat 125 100))) 1)).success then
                  some (respond (place_stop_loss_order_request put.product_id "buy"
                    (pyFloatStr (qmul mp (mkRat 125 100))) 1)).result_id
                else none,
              premium_collected := qadd mc mp, timestamp := now_iso },
          orders := [place_order_request call.product_id "sell" 1 "market_order",
                     place_order_request put.product_id "sell" 1 "market_order",
                     place_stop_loss_order_request call.product_id "buy"
                       (pyFloatStr (qmul mc (mkRat 125 100))) 1,
                     place_stop_loss_order_request put.product_id "buy"
                       (pyFloatStr (qmul mp (mkRat 125 100))) 1] } ∧
    ((if (respond (place_stop_loss_order_request call.product_id "buy"
          (pyFloatStr (qmul mc (mkRat 125 100))) 1)).success then
        some (respond (place_stop_loss_order_request call.product_id "buy"
          (pyFloatStr (qmul mc (mkRat 125 100))) 1)).result_id
      else none) = none ∨
     (if (respond (place_stop_loss_order_request put.product_id "buy"
          (pyFloatStr (qmul mp (mkRat 125 100))) 1)).success then
        some (respond (place_stop_loss_order_request put.product_id "buy"
          (pyFloatStr (qmul mp (mkRat 125 100))) 1)).result_id
      else none) = none) := by
  have h1 : (respond (place_order_request call.product_id "sell" 1 "market_order")).success = true :=
    hsell _ rfl
  have h2 : (respond (place_order_request put.product_id "sell" 1 "market_order")).success = true :=
    hsell _ rfl
  constructor
  · simp [execute_short_straddle, hne, hfind, hcs, hps, hmc, hmp, h1, h2]
  · rcases hfail with h | h
    · left
      simp [h]
    · right
      simp [h]

set_option maxRecDepth 8000 in
/-- C1 witness: the amended theorem applied to a concrete run where the call
stop-loss placement fails while the put stop-loss placement succeeds: the
ledger gains exactly one record with the call stop id absent and the put stop
id present. -/
theorem partial_stop_failure_witness :
    (callStopFailPutStopOk (place_stop_loss_order_request 1 "buy"
        (pyFloatStr (qmul 10 (mkRat 125 100))) 1)).success = false ∧
    (execute_short_straddle 42 1000 "T0" "12-10-2026" 100 [call95, put95]
        callStopFailPutStopOk []).positions
      = dictInsert [] (position_key 42 1000)
          { call_option := call95, put_option := put95,
            call_order_id := 31, put_order_id := 31,
            call_sl_order_id := none, put_sl_order_id := some 33,
            premium_collected := qadd 10 12, timestamp := "T0" } := by
  have h := partial_stop_failure_records_position_and_reports_success 42 1000 "T0" "12-10-2026"
    100 [call95, put95] callStopFailPutStopOk [] call95 put95 95 95 10 12 rfl (by decide)
    rfl rfl rfl rfl
    (fun r hr => by simp [callStopFailPutStopOk, hr])
    (Or.inl (by decide))
  refine ⟨by decide, ?_⟩
  rw [congrArg ExecResult.positions h.1]
  decide

/-- C3 counterexample: with an exchange double that rejects every order, the
call sell does not report success, yet the put sell order is still submitted
(the success check runs only after both sells have been placed); only then is
the failure reported. -/
theorem put_sell_submitted_despite_call_failure :
    (allFail (place_order_request 1 "sell" 1 "market_order")).success = false ∧
    (execute_short_straddle 43 1001 "T1" "12-10-2026" 100 [call95, put95] allFail []).orders
      = [place_order_request 1 "sell" 1 "market_order",
         place_order_request 2 "sell" 1 "market_order"] ∧
    place_order_request 2 "sell" 1 "market_order"
      ∈ (execute_short_straddle 43 1001 "T1" "12-10-2026" 100 [call95, put95] allFail []).orders ∧
    (execute_short_straddle 43 1001 "T1" "12-10-2026" 100 [call95, put95] allFail []).message
      = failed_orders_message := by
  decide

/-- C3 (amended): when the call market sell does not report success, no
stop-loss order is submitted, the failure message is returned, the ledger is
untouched and no unwinding buy order is sent - but the put market sell is
still submitted, because the source checks both sell responses only after
placing both orders. -/
theorem sell_failure_aborts_stop_orders
    (chat_id : Int) (now : Nat) (now_iso expiry : String) (spot : ℚ)
    (chain : List Instrument) (respond : OrderRequest → OrderResponse) (pos : Ledger)
    (call put : Instrument) (cs ps : ℚ)
    (hne : chain.isEmpty = false)
    (hfind : find_atm_strikes spot chain = (some call, some put))
    (hcs : call.strike_price = some cs) (hps : put.strike_price = some ps)
    (hfail : (respond (place_order_request call.product_id "sell" 1 "market_order")).success
      = false) :
    execute_short_straddle chat_id now now_iso expiry spot chain respond pos
      = { message := failed_orders_message, positions := pos,
          orders := [place_order_request call.product_id "sell" 1 "market_order",
                     place_order_request put.product_id "sell" 1 "market_order"] } ∧
    ∀ q ∈ (execute_short_straddle chat_id now now_iso expiry spot chain respond pos).orders,
      q.stop_order_type = none ∧ q.side = "sell" := by
  have hres : execute_short_straddle chat_id now now_iso expiry spot chain respond pos
      = { message := failed_orders_message, positions := pos,
          orders := [place_order_request call.product_id "sell" 1 "market_order",
                     place_order_request put.product_id "sell" 1 "market_order"] } := by
    simp [execute_short_straddle, hne, hfind, hcs, hps, hfail]
  refine ⟨hres, ?_⟩
  intro q hq
  rw [hres] at hq
  rcases List.mem_cons.mp hq with rfl | hq2
  · exact ⟨rfl, rfl⟩
  · rcases List.mem_cons.mp hq2 with rfl | hq3
    · exact ⟨rfl, rfl⟩
    · exact absurd hq3 (List.not_mem_nil q)

/-- C3 witness: the amended theorem applied to a concrete failing run. -/
theorem sell_failure_aborts_stop_orders_witness :
    (allFail (place_order_request 1 "sell" 1 "market_order")).success = false ∧
    (execute_short_straddle 44 1002 "T2" "12-10-2026" 100 [call95, put95] allFail []
      = { message := failed_orders_message, positions := [],
          orders := [place_order_request 1 "sell" 1 "market_order",
                     place_order_request 2 "sell" 1 "market_order"] } ∧
    ∀ q ∈ (execute_short_straddle 44 1002 "T2" "12-10-2026" 100 [call95, put95] allFail []).orders,
      q.stop_order_type = none ∧ q.side = "sell") :=
  ⟨rfl,
    sell_failure_aborts_stop_orders 44 1002 "T2" "12-10-2026" 100 [call95, put95] allFail []
      call95 put95 95 95 rfl (by decide) rfl rfl rfl⟩

set_option maxRecDepth 8000 in
/-- C8 counterexample: two executions for the same session within the same
epoch second derive the same ledger key, and the second insertion overwrites
the first record: after both runs the ledger holds a single record, the one of
the second run - a lost write. -/
theorem same_second_executions_share_ledger_key :
    ((execute_short_straddle 7 1000 "2026-10-12T10:00:00" "12-10-2026" 100
        [call95, put95] (allOk 21) []).positions.map (fun p => p.1))
      = [position_key 7 1000] ∧
    ((execute_short_straddle 7 1000 "2026-10-12T10:00:00" "12-10-2026" 100
        [call95, put95] (allOk 21) []).positions.map (fun p => p.2.call_order_id)) = [21] ∧
    ((execute_short_straddle 7 1000 "2026-10-12T10:00:00.900" "12-10-2026" 100
        [call95, put95] (allOk 22)
        (execute_short_straddle 7 1000 "2026-10-12T10:00:00" "12-10-2026" 100
          [call95, put95] (allOk 21) []).positions).positions.map (fun p => p.1))
      = [position_key 7 1000] ∧
    ((execute_short_straddle 7 1000 "2026-10-12T10:00:00.900" "12-10-2026" 100
        [call95, put95] (allOk 22)
        (execute_short_straddle 7 1000 "2026-10-12T10:00:00" "12-10-2026" 100
          [call95, put95] (allOk 21) []).positions).positions.map (fun p => p.2.call_order_id))
      = [22] := by
  decide

/-- C8 (amended): the ledger key is `chat_id + "_" + second`, so records from
two executions are both retained exactly when their session-and-second keys
differ; an execution that reuses an existing key overwrites that entry in
place rather than adding a record. -/
theorem distinct_keys_preserve_both_records
    (c₁ c₂ : Int) (t₁ t₂ : Nat) (r₁ r₂ : PositionRecord)
    (h : position_key c₁ t₁ ≠ position_key c₂ t₂) :
    dictInsert (dictInsert [] (position_key c₁ t₁) r₁) (position_key c₂ t₂) r₂
      = [(position_key c₁ t₁, r₁), (position_key c₂ t₂, r₂)] ∧
    ∀ r₂' : PositionRecord,
      dictInsert (dictInsert [] (position_key c₁ t₁) r₁) (position_key c₁ t₁) r₂'
        = [(position_key c₁ t₁, r₂')] := by
  constructor
  · have hb : (position_key c₁ t₁ == position_key c₂ t₂) = false := by
      rw [beq_eq_false_iff_ne]
      exact h
    simp [dictInsert, hb]
  · intro r₂'
    simp [dictInsert]

/-- C8 witness: the amended theorem applied to keys one second apart. -/
theorem distinct_keys_preserve_both_records_witness :
    position_key 7 1000 ≠ position_key 7 1001 ∧
    (dictInsert (dictInsert [] (position_key 7 1000) recordA) (position_key 7 1001) recordB
      = [(position_key 7 1000, recordA), (position_key 7 1001, recordB)] ∧
    ∀ r₂' : PositionRecord,
      dictInsert (dictInsert [] (position_key 7 1000) recordA) (position_key 7 1000) r₂'
        = [(position_key 7 1000, r₂')]) :=
  ⟨by decide, distinct_keys_preserve_both_records 7 7 1000 1001 recordA recordB (by decide)⟩
